import Mathlib

/-!
Shallow embedding of the audio-visualization component `src/components/Viz.vue`
(auviz_vue). Numeric quantities of the playback controller and canvas geometry
are modelled over `ℚ`; the polar projection and the particle field, which go
through trigonometric functions, are modelled over `ℝ`. A JavaScript `NaN`
(an unresolved media duration) is modelled as `Option.none`, with the JS
semantics that every `<`/`>` comparison against `NaN` is false and arithmetic
propagates `NaN`.
-/

namespace Auviz

/-! ## Constants (Viz.vue lines 97-111) -/

def FREQ_BIN_COUNT : ℕ := 256

def fragmentsCount : ℕ := 256

def fragmentsMinRadius : ℚ := 1/150

def fragmentsMaxRadius : ℚ := 1/60

def fragmentsStepRadius : ℚ := 1/2000

def fragmentsStepAngle : ℚ := 3/2

def ANGLE_STEP : ℚ := 3/10

def radiusLimitMin : ℚ := 1/5

def radiusLimitMax : ℚ := 3/8

def aspectRatio : ℚ := 16/9

/-! ## Playback controller: volume and mute (Viz.vue lines 484-508)

The observable state touched by `toggleMute` / `setVolume`: the media
element's `volume` and `muted` attributes, the `isMuted` reactive ref, and
the height (in percent) of the volume indicator fill `barVolumeNow`. -/

structure AudioVolumeState where
  volume : ℚ
  audioMuted : Bool
  isMutedRef : Bool
  barVolumeNowHeightPct : ℚ
  deriving DecidableEq, Repr

/-- `initAudio` (lines 216-264): `audio.volume = 0.8`, nothing muted,
volume fill initialized to `audio.volume * 100` percent. -/
def initAudioVolumeState : AudioVolumeState :=
  { volume := 4/5, audioMuted := false, isMutedRef := false
    barVolumeNowHeightPct := 80 }

/-- `toggleMute` (lines 484-487): flips `audio.muted`, then copies it into
the `isMuted` ref. -/
def toggleMute (s : AudioVolumeState) : AudioVolumeState :=
  let m := !s.audioMuted
  { s with audioMuted := m, isMutedRef := m }

/-- `setVolume` (lines 494-508). A negative argument only toggles mute on
(when not already muted) and returns early; an argument above 1 saturates
to 1; a muted state is un-muted before the volume is applied. -/
def setVolume (volumePercent : ℚ) (s : AudioVolumeState) : AudioVolumeState :=
  if volumePercent < 0 then
    if !s.isMutedRef then toggleMute s else s
  else
    let v := if volumePercent > 1 then 1 else volumePercent
    let s1 := if s.isMutedRef then toggleMute s else s
    { s1 with volume := v, barVolumeNowHeightPct := v * 100 }

/-! ## Animation scheduler (Viz.vue lines 322-350)

`startStep`/`stopStep` guard a 20 ms `setInterval` logical stepper and a
`requestAnimationFrame` redraw chain behind two sentinel handles
(`stepEventId`, `flushEventId`, both 0 when inactive). The environment is
modelled explicitly: `liveIntervals` is the set of interval timers currently
registered with the host, `rafChains` counts active self-rescheduling redraw
chains (`render` re-schedules itself only while `flushEventId ≠ 0`, so a
chain is alive exactly while its handle is set), and `nextId` supplies the
fresh positive ids returned by `setInterval` / `requestAnimationFrame`. -/

structure SchedState where
  stepEventId : ℕ
  flushEventId : ℕ
  liveIntervals : List ℕ
  rafChains : ℕ
  nextId : ℕ
  deriving DecidableEq, Repr

/-- The state before any playback: both handles zero, no timers. -/
def initSchedState : SchedState :=
  { stepEventId := 0, flushEventId := 0, liveIntervals := [], rafChains := 0
    nextId := 1 }

/-- `startStep` (lines 322-339): registers the interval stepper only when
`stepEventId === 0`, and starts the redraw chain only when
`flushEventId === 0`. -/
def startStep (s : SchedState) : SchedState :=
  let s1 :=
    if s.stepEventId = 0 then
      { s with stepEventId := s.nextId
               liveIntervals := s.nextId :: s.liveIntervals
               nextId := s.nextId + 1 }
    else s
  if s1.flushEventId = 0 then
    { s1 with flushEventId := s1.nextId, rafChains := s1.rafChains + 1
              nextId := s1.nextId + 1 }
  else s1

/-- `stopStep` (lines 341-350): clears the interval and zeroes
`stepEventId` when it is non-zero, and ends the redraw chain and zeroes
`flushEventId` when it is non-zero. -/
def stopStep (s : SchedState) : SchedState :=
  let s1 :=
    if s.stepEventId ≠ 0 then
      { s with liveIntervals := s.liveIntervals.erase s.stepEventId
               stepEventId := 0 }
    else s
  if s1.flushEventId ≠ 0 then
    { s1 with rafChains := s1.rafChains - 1, flushEventId := 0 }
  else s1

/-- The scheduler's reachable-state invariant: ids are positive and fresh,
the interval registry holds exactly the timer named by `stepEventId` (none
when the handle is zero), and there is an active redraw chain exactly when
`flushEventId` is non-zero. -/
def SchedInv (s : SchedState) : Prop :=
  0 < s.nextId ∧
  s.liveIntervals = (if s.stepEventId = 0 then [] else [s.stepEventId]) ∧
  s.rafChains = (if s.flushEventId = 0 then 0 else 1)

instance (s : SchedState) : Decidable (SchedInv s) := by
  unfold SchedInv; infer_instance

/-! ## Time display and seeking (Viz.vue lines 427-482, 510-517)

`audio.duration` may still be `NaN` before metadata arrives; it is modelled
as `Option ℚ` with `none` for `NaN`. A JS comparison `a < b` is false
whenever either side is `NaN`. -/

/-- JS `a < b` on possibly-`NaN` operands: false if either side is `NaN`. -/
def jsLt : Option ℚ → Option ℚ → Bool
  | some a, some b => decide (a < b)
  | _, _ => false

/-- JS truncation toward zero, as used by the `%` remainder operator. -/
def jsTrunc (q : ℚ) : ℤ :=
  if q < 0 then -⌊-q⌋ else ⌊q⌋

/-- `parseSecondsToTime` (lines 427-431): `sec = Math.floor(seconds % 60)`,
`min = Math.floor(seconds / 60)`, each zero-padded to two characters.
JS `%` is the truncated remainder `seconds - 60 * trunc(seconds / 60)`. -/
def parseSecondsToTime (seconds : ℚ) : String :=
  let sec : ℤ := ⌊seconds - 60 * (jsTrunc (seconds / 60) : ℚ)⌋
  let min : ℤ := ⌊seconds / 60⌋
  (if min < 10 then "0" else "") ++ toString min ++ ":" ++
    (if sec < 10 then "0" else "") ++ toString sec

/-- The preview seconds value of `seekProgress` (line 464):
`Math.floor(seekPercent * (isNaN(duration) ? 0 : duration))`. -/
def seekPreviewTime (offsetX barWidth : ℚ) (duration : Option ℚ) : ℤ :=
  ⌊offsetX / barWidth * duration.getD 0⌋

/-- The DOM state written by `seekProgress`: the hovered time label and the
positions (in percent) of the played bar and the seeker knob. -/
structure SeekDisplay where
  timeNowText : String
  barPlayedWidthPct : ℚ
  seekerLeftPct : ℚ
  deriving DecidableEq, Repr

/-- `seekProgress` (lines 462-468). -/
def seekProgress (offsetX barWidth : ℚ) (duration : Option ℚ) : SeekDisplay :=
  let seekPercent := offsetX / barWidth
  { timeNowText := parseSecondsToTime (seekPreviewTime offsetX barWidth duration : ℚ)
    barPlayedWidthPct := seekPercent * 100
    seekerLeftPct := seekPercent * 100 }

/-- `setProgress` (lines 475-482): clamps `time` below by 0 and above by
`audio.duration`, then assigns `audio.currentTime`. Both comparisons are
JS comparisons, hence false when either operand is `NaN`; the returned
value is the one written to `currentTime` (`none` = writing `NaN`, which
the media element rejects). -/
def setProgress (time : Option ℚ) (duration : Option ℚ) : Option ℚ :=
  if jsLt time (some 0) then some 0
  else if jsLt duration time then duration
  else time

/-- `jumpProgress` (lines 470-473): commit a progress-bar click.
`seekPercent * (isNaN(duration) ? 0 : duration)` routed through
`setProgress`. -/
def jumpProgress (offsetX barWidth : ℚ) (duration : Option ℚ) : Option ℚ :=
  setProgress (some (offsetX / barWidth * duration.getD 0)) duration

/-- The seek target computed by the horizontal branch of `scrollEvent`
(line 512): `audio.currentTime - e.deltaX / canvasSize.width *
audio.duration`. `currentTime` is always a number, but an unresolved
`duration` makes the whole product `NaN`. -/
def scrollSeekTime (currentTime deltaX canvasWidth : ℚ)
    (duration : Option ℚ) : Option ℚ :=
  match duration with
  | some d => some (currentTime - deltaX / canvasWidth * d)
  | none => none

/-- The horizontal-wheel seek commit of `scrollEvent` (lines 510-513),
routed through `setProgress`. -/
def scrollSeek (currentTime deltaX canvasWidth : ℚ)
    (duration : Option ℚ) : Option ℚ :=
  setProgress (scrollSeekTime currentTime deltaX canvasWidth duration) duration

/-! ## Canvas geometry and the spectrum renderer (Viz.vue lines 192-214,
352-383) -/

structure CanvasSize where
  width : ℚ
  height : ℚ
  deriving DecidableEq, Repr

structure FreqMultiplyRate where
  radius : ℚ
  angleInDegrees : ℚ
  deriving DecidableEq, Repr

/-- `initCanvasSize` (lines 192-196): height from the fixed aspect ratio. -/
def initCanvasSize (width : ℚ) : CanvasSize :=
  { width, height := width / aspectRatio }

/-- `initCanvasSize` (lines 199-202): the cached per-magnitude radius scale
`canvasSize.height * (RADIUS_LIMIT.max - RADIUS_LIMIT.min) / 256` and the
per-bin angular step. -/
def initFreqMultiplyRate (c : CanvasSize) : FreqMultiplyRate :=
  { radius := c.height * (radiusLimitMax - radiusLimitMin) / 256
    angleInDegrees := 360 / (FREQ_BIN_COUNT : ℚ) }

/-- One stroked spectrum segment, by its polar parameters (the inputs the
render loop passes to `convertPolarToCartesian` for bin `i`, lines
364-383). -/
structure Segment where
  startRadius : ℚ
  endRadius : ℚ
  angleInDegree : ℚ
  deriving DecidableEq, Repr

/-- The segment drawn for loop index `i` in `render` (lines 364-383):
angle `freqMultiplyRate.angleInDegrees * i * 2 + angleOffset`, inner end at
`canvasSize.height * RADIUS_LIMIT.min`, outer end at
`dataArray[i] * freqMultiplyRate.radius * (audio.volume * 0.5 + 0.5) +
canvasSize.height * RADIUS_LIMIT.min`. -/
def spectrumSegment (c : CanvasSize) (fm : FreqMultiplyRate)
    (angleOffset volume : ℚ) (dataArray : ℕ → ℕ) (i : ℕ) : Segment :=
  { angleInDegree := fm.angleInDegrees * i * 2 + angleOffset
    startRadius := c.height * radiusLimitMin
    endRadius := (dataArray i : ℚ) * fm.radius * (volume * (1/2) + 1/2) +
      c.height * radiusLimitMin }

/-! ## Polar projection (Viz.vue lines 418-425) -/

/-- `convertPolarToCartesian` (lines 418-425). The default offsets
`canvasSize.width / 2`, `canvasSize.height / 2` are call-site sugar; here
they are always explicit. -/
noncomputable def convertPolarToCartesian (radius angleInDegrees offsetX offsetY : ℝ) :
    ℝ × ℝ :=
  let angleInRadians := (angleInDegrees - 90) * (Real.pi / 180)
  (radius * Real.cos angleInRadians + offsetX,
   radius * Real.sin angleInRadians + offsetY)

/-! ## Particle field (Viz.vue lines 286-310, 386-399, 553-584) -/

structure FragmentProps where
  selfRadius : ℝ
  selfAngle : ℝ
  positionRadius : ℝ
  positionAngle : ℝ
  stepRadius : ℝ
  stepAngle : ℝ

structure FragmentSize where
  minSelfRadius : ℝ
  maxSelfRadius : ℝ
  minPositionRadius : ℝ
  maxPositionRadius : ℝ
  stepRadius : ℝ

/-- `initFragmentsSize` (lines 286-295). -/
noncomputable def initFragmentsSize (c : CanvasSize) : FragmentSize :=
  let minPositionRadius := (radiusLimitMin : ℝ) * (c.height : ℝ)
  { minSelfRadius := (fragmentsMinRadius : ℝ) * (c.height : ℝ)
    maxSelfRadius := (fragmentsMaxRadius : ℝ) * (c.height : ℝ)
    minPositionRadius
    maxPositionRadius := (c.width : ℝ) / 2 - minPositionRadius
    stepRadius := (fragmentsStepRadius : ℝ) * (c.width : ℝ) }

/-- One draw of `Math.random()` per randomized attribute of a spawned
fragment; each draw lies in `[0, 1)`. -/
structure RandVec where
  rSelfRadius : ℝ
  rSelfAngle : ℝ
  rPositionRadius : ℝ
  rPositionAngle : ℝ
  rStepRadius : ℝ
  rStepAngle : ℝ

/-- The fragment built by `initFragments` (lines 300-307). -/
noncomputable def spawnInitFragment (fs : FragmentSize) (r : RandVec) : FragmentProps :=
  { selfRadius := r.rSelfRadius * (fs.maxSelfRadius - fs.minSelfRadius) + fs.minSelfRadius
    selfAngle := r.rSelfAngle * 360
    positionRadius :=
      r.rPositionRadius * (fs.maxPositionRadius - fs.minPositionRadius) + fs.minPositionRadius
    positionAngle := r.rPositionAngle * 360
    stepRadius := (r.rStepRadius * (1/2) + 1/2) * fs.stepRadius
    stepAngle := (r.rStepAngle * 2 - 1) * (fragmentsStepAngle : ℝ) }

/-- The replacement fragment built in `render`'s recycling branch (lines
388-396): attributes as in `spawnInitFragment`, except its
`positionRadius` is pinned to `minPositionRadius -` its own fresh
`selfRadius`. -/
noncomputable def recycleFragment (fs : FragmentSize) (r : RandVec) : FragmentProps :=
  let selfRadius := r.rSelfRadius * (fs.maxSelfRadius - fs.minSelfRadius) + fs.minSelfRadius
  { selfRadius
    selfAngle := r.rSelfAngle * 360
    positionRadius := fs.minPositionRadius - selfRadius
    positionAngle := r.rPositionAngle * 360
    stepRadius := (r.rStepRadius * (1/2) + 1/2) * fs.stepRadius
    stepAngle := (r.rStepAngle * 2 - 1) * (fragmentsStepAngle : ℝ) }

/-- The off-canvas test of `drawFragment` (lines 553-563): the fragment's
projected bounding extent lies fully outside `[0, width] × [0, height]`.
`drawFragment` returns `false` (no draw) exactly in this case. -/
noncomputable def isOffCanvas (w h : ℝ) (f : FragmentProps) : Prop :=
  let center := convertPolarToCartesian f.positionRadius f.positionAngle (w / 2) (h / 2)
  center.1 + f.selfRadius < 0 ∨ center.1 - f.selfRadius > w ∨
  center.2 + f.selfRadius < 0 ∨ center.2 - f.selfRadius > h

noncomputable instance (w h : ℝ) (f : FragmentProps) : Decidable (isOffCanvas w h f) := by
  unfold isOffCanvas; infer_instance

/-- One slot of the fragment pass in `render` (lines 386-399): if
`drawFragment` reports the stored fragment off-canvas, the slot is
overwritten with a recycled fragment (which is then drawn); otherwise the
stored fragment was drawn and kept. The returned fragment is, in both
branches, the one that was drawn. -/
noncomputable def renderFragmentStep (w h : ℝ) (fs : FragmentSize) (r : RandVec)
    (f : FragmentProps) : FragmentProps :=
  if isOffCanvas w h f then recycleFragment fs r else f

/-- The whole fragment pass of `render` over the fragment array, with the
stream of `Math.random()` draws made explicit. -/
noncomputable def renderFragmentsPass (w h : ℝ) (fs : FragmentSize)
    (frags : List FragmentProps) (rands : List RandVec) : List FragmentProps :=
  List.zipWith (fun f r => renderFragmentStep w h fs r f) frags rands

/-- The per-fragment update of the 20 ms logical stepper (lines 329-332):
`positionRadius += stepRadius; selfAngle += stepAngle`. -/
noncomputable def tickFragment (f : FragmentProps) : FragmentProps :=
  { f with positionRadius := f.positionRadius + f.stepRadius
           selfAngle := f.selfAngle + f.stepAngle }

/-! ## Palette adapter (Viz.vue lines 519-551)

`rgbToHsl`/`hslToRgb` are imported from `src/utils/color`, a repository
file not present under `src/`; they are modelled from the spec (Palette
Adapter, section 4.4): convert to hue/saturation/lightness, discard the
original lightness, re-synthesize at a fixed target lightness. The
standard RGB↔HSL conversion is used, over `ℚ` with channels in
`[0, 255]` and `h, s, l` in `[0, 1]`. -/

/-- An RGB triple, channels in `[0, 255]`. -/
abbrev RgbColor := ℚ × ℚ × ℚ

/-- JS `Math.round`. -/
def jsRound (q : ℚ) : ℤ := ⌊q + 1/2⌋

/-- Modelled from the spec: `rgbToHsl` of `src/utils/color` (absent from
`src/`) — the standard RGB→HSL conversion. -/
def rgbToHsl (r g b : ℚ) : ℚ × ℚ × ℚ :=
  let r := r / 255
  let g := g / 255
  let b := b / 255
  let cmax := max r (max g b)
  let cmin := min r (min g b)
  let l := (cmax + cmin) / 2
  if cmax = cmin then (0, 0, l)
  else
    let d := cmax - cmin
    let s := if l > 1/2 then d / (2 - cmax - cmin) else d / (cmax + cmin)
    let h :=
      if cmax = r then (g - b) / d + (if g < b then 6 else 0)
      else if cmax = g then (b - r) / d + 2
      else (r - g) / d + 4
    (h / 6, s, l)

/-- Modelled from the spec: the `hue2rgb` helper of the standard HSL→RGB
conversion. -/
def hueToRgbChannel (p q t : ℚ) : ℚ :=
  let t := if t < 0 then t + 1 else if t > 1 then t - 1 else t
  if t < 1/6 then p + (q - p) * 6 * t
  else if t < 1/2 then q
  else if t < 2/3 then p + (q - p) * (2/3 - t) * 6
  else p

/-- Modelled from the spec: `hslToRgb` of `src/utils/color` (absent from
`src/`) — the standard HSL→RGB conversion, channels rounded to
`[0, 255]`. -/
def hslToRgb (h s l : ℚ) : RgbColor :=
  if s = 0 then
    ((jsRound (l * 255) : ℚ), (jsRound (l * 255) : ℚ), (jsRound (l * 255) : ℚ))
  else
    let q := if l < 1/2 then l * (1 + s) else l + s - l * s
    let p := 2 * l - q
    ((jsRound (hueToRgbChannel p q (h + 1/3) * 255) : ℚ),
     (jsRound (hueToRgbChannel p q h * 255) : ℚ),
     (jsRound (hueToRgbChannel p q (h - 1/3) * 255) : ℚ))

/-- `changeColor` (lines 548-551): keep hue and saturation, re-synthesize
at lightness 0.3 (darken) or 0.85 (lighten). -/
def changeColor (rgbColor : RgbColor) (isDarken : Bool) : RgbColor :=
  let hs := rgbToHsl rgbColor.1 rgbColor.2.1 rgbColor.2.2
  hslToRgb hs.1 hs.2.1 (if isDarken then 3/10 else 17/20)

/-- The padding loop of `getCoverColor` (lines 524-527):
`while (palette.length < 3) palette.push(palette[0])`. On an empty JS
palette `palette[0]` is `undefined`; here the inhabited default stands in
for it (the claims only concern non-empty palettes). -/
def ensureThreeColors (palette : List RgbColor) : List RgbColor :=
  if _h : palette.length < 3 then ensureThreeColors (palette ++ [palette.headI])
  else palette
termination_by 3 - palette.length
decreasing_by simp [List.length_append]; omega

/-- The three role colors assigned by `getCoverColor` (lines 530-534):
background from entry 0 darkened, spectrum stroke from entry 1 lightened,
fragment fill from entry 2 lightened (the 0.4 alpha of the fragment fill
is not part of the color triple). -/
structure RoleColors where
  bg : RgbColor
  freq : RgbColor
  fragments : RgbColor
  deriving DecidableEq, Repr

/-- `getCoverColor` (lines 519-546), restricted to its palette → color
computation: pad the extracted palette to at least three entries, then
derive the three role colors. -/
def getCoverColors (palette : List RgbColor) : RoleColors :=
  let p := ensureThreeColors palette
  { bg := changeColor (p.getD 0 default) true
    freq := changeColor (p.getD 1 default) false
    fragments := changeColor (p.getD 2 default) false }

/-! ## Theorems -/

/-- On a non-negative argument, `setVolume` leaves the controller unmuted
(given the lock-step mute invariant) and stores the clamped volume. -/
lemma setVolume_nonneg_eq (v : ℚ) (hv : 0 ≤ v) (s : AudioVolumeState)
    (hsync : s.audioMuted = s.isMutedRef) :
    setVolume v s =
      { volume := min v 1, audioMuted := false, isMutedRef := false
        barVolumeNowHeightPct := min v 1 * 100 } := by
  rcases hm : s.isMutedRef with _ | _ <;> rw [hm] at hsync <;>
    rcases le_or_lt v 1 with h1 | h1
  · simp [setVolume, toggleMute, hm, hsync, not_lt.mpr hv, not_lt.mpr h1,
      min_eq_left h1]
  · simp [setVolume, toggleMute, hm, hsync, not_lt.mpr hv, h1,
      min_eq_right (le_of_lt h1)]
  · simp [setVolume, toggleMute, hm, hsync, not_lt.mpr hv, not_lt.mpr h1,
      min_eq_left h1]
  · simp [setVolume, toggleMute, hm, hsync, not_lt.mpr hv, h1,
      min_eq_right (le_of_lt h1)]

/-- The stored volume after `setVolume` with a non-negative argument is the
argument clamped to `[0, 1]`, for every controller state. -/
lemma setVolume_volume_eq (v : ℚ) (hv : 0 ≤ v) (s : AudioVolumeState) :
    (setVolume v s).volume = min v 1 := by
  rcases le_or_lt v 1 with h1 | h1
  · simp [setVolume, not_lt.mpr hv, not_lt.mpr h1, min_eq_left h1]
  · simp [setVolume, not_lt.mpr hv, h1, min_eq_right (le_of_lt h1)]

/-- `setVolume` with a negative argument from the initial state: stored
volume untouched, both mute flags raised. -/
lemma setVolume_neg_init :
    setVolume (-(1/2)) initAudioVolumeState =
      { volume := 4/5, audioMuted := true, isMutedRef := true
        barVolumeNowHeightPct := 80 } := by
  norm_num [setVolume, toggleMute, initAudioVolumeState]

/-- C2: `setVolume` clamps its argument to `[0, 1]` and treats negative
input as a mute gesture: `setVolume(-0.5)` while unmuted (the media
`muted` attribute and the `isMuted` ref are kept in lock-step by
`toggleMute`) yields `muted = true` with the audio volume unchanged;
`setVolume(1.5)` yields `volume = 1` and, if muted, un-mutes first; and
for every non-negative argument the stored volume is `min v 1`. -/
theorem setVolume_clamps_and_negative_mutes :
    (∀ s : AudioVolumeState, s.audioMuted = false → s.isMutedRef = false →
      (setVolume (-(1/2)) s).isMutedRef = true ∧
      (setVolume (-(1/2)) s).audioMuted = true ∧
      (setVolume (-(1/2)) s).volume = s.volume) ∧
    (∀ s : AudioVolumeState, s.audioMuted = s.isMutedRef →
      (setVolume (3/2) s).volume = 1 ∧ (setVolume (3/2) s).isMutedRef = false) ∧
    (∀ (v : ℚ) (s : AudioVolumeState), 0 ≤ v →
      (setVolume v s).volume = min v 1) := by
  refine ⟨?_, ?_, ?_⟩
  · intro s h1 h2
    simp [setVolume, toggleMute, h1, h2]
  · intro s hsync
    rw [setVolume_nonneg_eq (3/2) (by norm_num) s hsync]
    norm_num
  · intro v s hv
    exact setVolume_volume_eq v hv s

/-- Witness for C2 at the freshly initialized controller state. -/
theorem setVolume_clamps_and_negative_mutes_witness :
    (setVolume (-(1/2)) initAudioVolumeState).isMutedRef = true ∧
    (setVolume (-(1/2)) initAudioVolumeState).volume = initAudioVolumeState.volume ∧
    (setVolume (3/2) initAudioVolumeState).volume = 1 ∧
    (setVolume (1/4) initAudioVolumeState).volume = min (1/4) 1 := by
  refine ⟨(setVolume_clamps_and_negative_mutes.1 initAudioVolumeState rfl rfl).1,
    (setVolume_clamps_and_negative_mutes.1 initAudioVolumeState rfl rfl).2.2,
    (setVolume_clamps_and_negative_mutes.2.1 initAudioVolumeState rfl).1,
    setVolume_clamps_and_negative_mutes.2.2 (1/4) initAudioVolumeState (by norm_num)⟩

/-- C10: `setVolume 0` is not a mute gesture: from any lock-step state it
sets the volume to 0, leaves the controller unmuted (un-muting first if
needed) and sets the indicator fill to 0 percent; consequently the muted
state reached by `setVolume (-1/2)` (muted, stored volume still 0.8) and
the state reached by `setVolume 0` (unmuted, volume 0) from the initial
state are distinct. -/
theorem setVolume_zero_is_not_mute :
    (∀ s : AudioVolumeState, s.audioMuted = s.isMutedRef →
      (setVolume 0 s).volume = 0 ∧ (setVolume 0 s).isMutedRef = false ∧
      (setVolume 0 s).barVolumeNowHeightPct = 0) ∧
    setVolume (-(1/2)) initAudioVolumeState ≠ setVolume 0 initAudioVolumeState ∧
    (setVolume (-(1/2)) initAudioVolumeState).isMutedRef = true ∧
    (setVolume (-(1/2)) initAudioVolumeState).volume = 4/5 ∧
    (setVolume 0 initAudioVolumeState).isMutedRef = false ∧
    (setVolume 0 initAudioVolumeState).volume = 0 := by
  have hzero : setVolume 0 initAudioVolumeState =
      { volume := 0, audioMuted := false, isMutedRef := false
        barVolumeNowHeightPct := 0 } := by
    rw [setVolume_nonneg_eq 0 le_rfl initAudioVolumeState rfl]
    norm_num
  refine ⟨?_, ?_, ?_, ?_, ?_, ?_⟩
  · intro s hsync
    rw [setVolume_nonneg_eq 0 le_rfl s hsync]
    norm_num
  · rw [setVolume_neg_init, hzero]
    simp
  · rw [setVolume_neg_init]
  · rw [setVolume_neg_init]
  · rw [hzero]
  · rw [hzero]

/-- Witness for C10 at the freshly initialized controller state. -/
theorem setVolume_zero_is_not_mute_witness :
    (setVolume 0 initAudioVolumeState).volume = 0 ∧
    (setVolume 0 initAudioVolumeState).isMutedRef = false := by
  exact ⟨(setVolume_zero_is_not_mute.1 initAudioVolumeState rfl).1,
    (setVolume_zero_is_not_mute.1 initAudioVolumeState rfl).2.1⟩

/-- C1: starting playback is idempotent for both animation loops. From any
state satisfying the scheduler invariant, `startStep` twice in succession
equals `startStep` once and leaves exactly one registered logical-stepper
interval and exactly one active redraw chain; each handle is non-zero iff
its loop is active; `stopStep` is idempotent and zeroes both handles,
leaving no interval and no redraw chain. -/
theorem startStep_stopStep_idempotent :
    ∀ s : SchedState, SchedInv s →
      startStep (startStep s) = startStep s ∧
      (startStep s).liveIntervals.length = 1 ∧
      (startStep s).rafChains = 1 ∧
      (startStep s).stepEventId ≠ 0 ∧
      (startStep s).flushEventId ≠ 0 ∧
      (s.stepEventId ≠ 0 ↔ s.liveIntervals ≠ []) ∧
      (s.flushEventId ≠ 0 ↔ s.rafChains = 1) ∧
      SchedInv (startStep s) ∧
      stopStep (stopStep s) = stopStep s ∧
      (stopStep s).stepEventId = 0 ∧
      (stopStep s).flushEventId = 0 ∧
      (stopStep s).liveIntervals = [] ∧
      (stopStep s).rafChains = 0 ∧
      SchedInv (stopStep s) := by
  rintro ⟨se, fe, li, rc, ni⟩ ⟨h0, hI, hR⟩
  by_cases hs : se = 0 <;> by_cases hf : fe = 0 <;>
    simp only [if_pos, if_neg, hs, hf, if_true, if_false, ite_true, ite_false,
      reduceIte] at hI hR <;>
    subst hI hR <;>
    simp_all [startStep, stopStep, SchedInv, Nat.pos_iff_ne_zero,
      List.erase_cons_head]

/-- Witness for C1 at the pristine scheduler state. -/
theorem startStep_stopStep_idempotent_witness :
    SchedInv initSchedState ∧
    startStep (startStep initSchedState) = startStep initSchedState ∧
    (startStep initSchedState).liveIntervals.length = 1 ∧
    (startStep initSchedState).rafChains = 1 ∧
    stopStep (stopStep initSchedState) = stopStep initSchedState ∧
    (stopStep initSchedState).stepEventId = 0 ∧
    (stopStep initSchedState).flushEventId = 0 := by
  have hinv : SchedInv initSchedState := by decide
  have h := startStep_stopStep_idempotent initSchedState hinv
  exact ⟨hinv, h.1, h.2.1, h.2.2.1, h.2.2.2.2.2.2.2.2.1, h.2.2.2.2.2.2.2.2.2.1,
    h.2.2.2.2.2.2.2.2.2.2.1⟩

/-- C9: the polar-to-Cartesian projection is a pure total function that is
periodic in the angle with period 360 degrees, and it satisfies
`x = cx + r·cos((θ − 90)·π/180)`, `y = cy + r·sin((θ − 90)·π/180)`. -/
theorem convertPolarToCartesian_periodic :
    ∀ r θ cx cy : ℝ,
      convertPolarToCartesian r (θ + 360) cx cy = convertPolarToCartesian r θ cx cy ∧
      (convertPolarToCartesian r θ cx cy).1 =
        cx + r * Real.cos ((θ - 90) * (Real.pi / 180)) ∧
      (convertPolarToCartesian r θ cx cy).2 =
        cy + r * Real.sin ((θ - 90) * (Real.pi / 180)) := by
  intro r θ cx cy
  refine ⟨?_, by simp [convertPolarToCartesian]; ring,
    by simp [convertPolarToCartesian]; ring⟩
  have hx : (θ + 360 - 90) * (Real.pi / 180) =
      (θ - 90) * (Real.pi / 180) + 2 * Real.pi := by ring
  simp only [convertPolarToCartesian, hx, Real.cos_add_two_pi, Real.sin_add_two_pi]

/-- C7 counterexample: at container width 2560 (canvas height 1440) the
cached per-magnitude radius scale is `1440·(3/8 − 1/5)/256 = 63/64`, not
`(radiusMax − radiusMin)/255 = 84/85` as the claim states. -/
theorem freqRadiusScale_not_div255 :
    (initFreqMultiplyRate (initCanvasSize 2560)).radius ≠
      ((initCanvasSize 2560).height * radiusLimitMax -
        (initCanvasSize 2560).height * radiusLimitMin) / 255 := by
  norm_num [initFreqMultiplyRate, initCanvasSize, radiusLimitMax, radiusLimitMin,
    aspectRatio]

/-- C7 (amended): the per-magnitude radius scale, recomputed with the
canvas geometry, equals `(radiusMax − radiusMin) / 256` (not 255), with
`radiusMax`/`radiusMin` the configured fractions of the canvas height; the
stroked segment for bin `i` starts at `radiusMin` and ends at radius
`magnitude[i] · radiusScale · (volume·0.5 + 0.5) + radiusMin`. -/
theorem freqRadiusScale_div256 :
    ∀ (w angleOffset volume : ℚ) (d : ℕ → ℕ) (i : ℕ),
      (initFreqMultiplyRate (initCanvasSize w)).radius =
        ((initCanvasSize w).height * radiusLimitMax -
          (initCanvasSize w).height * radiusLimitMin) / 256 ∧
      (spectrumSegment (initCanvasSize w) (initFreqMultiplyRate (initCanvasSize w))
          angleOffset volume d i).endRadius =
        (d i : ℚ) * (initFreqMultiplyRate (initCanvasSize w)).radius *
          (volume * (1/2) + 1/2) + (initCanvasSize w).height * radiusLimitMin ∧
      (spectrumSegment (initCanvasSize w) (initFreqMultiplyRate (initCanvasSize w))
          angleOffset volume d i).startRadius =
        (initCanvasSize w).height * radiusLimitMin := by
  intro w angleOffset volume d i
  refine ⟨?_, rfl, rfl⟩
  show (initCanvasSize w).height * (radiusLimitMax - radiusLimitMin) / 256 = _
  ring

/-- After `n` logical ticks a fragment's `positionRadius` has grown by
`n · stepRadius`, and `stepRadius` itself never changes. -/
lemma tickFragment_iterate (f : FragmentProps) (n : ℕ) :
    (tickFragment^[n] f).positionRadius = f.positionRadius + n * f.stepRadius ∧
    (tickFragment^[n] f).stepRadius = f.stepRadius := by
  induction n with
  | zero => simp
  | succ n ih =>
    rw [Function.iterate_succ_apply']
    refine ⟨?_, by simp [tickFragment, ih.2]⟩
    simp only [tickFragment, ih.1, ih.2]
    push_cast
    ring

/-- C4: every spawned particle (at field initialization or at recycling)
has `stepRadius ≥ 0` whenever the canvas width is non-negative, and for
every particle with `stepRadius ≥ 0` the `positionRadius` after `m`
logical ticks is at most the `positionRadius` after `n ≥ m` ticks:
outward-only drift until recycling resets it. -/
theorem positionRadius_monotone :
    (∀ (c : CanvasSize) (r : RandVec), 0 ≤ r.rStepRadius → 0 ≤ (c.width : ℝ) →
      0 ≤ (spawnInitFragment (initFragmentsSize c) r).stepRadius ∧
      0 ≤ (recycleFragment (initFragmentsSize c) r).stepRadius) ∧
    (∀ (f : FragmentProps) (m n : ℕ), 0 ≤ f.stepRadius → m ≤ n →
      (tickFragment^[m] f).positionRadius ≤ (tickFragment^[n] f).positionRadius) := by
  constructor
  · intro c r hr hw
    have hfac : (0 : ℝ) ≤ r.rStepRadius * (1/2) + 1/2 := by linarith
    have hstep : (0 : ℝ) ≤ (fragmentsStepRadius : ℝ) * (c.width : ℝ) := by
      have : (0 : ℝ) ≤ ((fragmentsStepRadius : ℚ) : ℝ) := by
        norm_num [fragmentsStepRadius]
      exact mul_nonneg this hw
    exact ⟨mul_nonneg hfac hstep, mul_nonneg hfac hstep⟩
  · intro f m n hstep hmn
    rw [(tickFragment_iterate f m).1, (tickFragment_iterate f n).1]
    have : (m : ℝ) * f.stepRadius ≤ (n : ℝ) * f.stepRadius :=
      mul_le_mul_of_nonneg_right (by exact_mod_cast Nat.cast_le.mpr hmn) hstep
    linarith

/-- Witness for C4 at a concrete geometry, random draw, fragment and pair
of tick counts. -/
theorem positionRadius_monotone_witness :
    0 ≤ (spawnInitFragment (initFragmentsSize ⟨160, 90⟩)
      ⟨1/2, 1/2, 1/2, 1/2, 1/2, 1/2⟩).stepRadius ∧
    (tickFragment^[1] ⟨1, 0, 10, 0, 1, 0⟩).positionRadius ≤
      (tickFragment^[3] ⟨1, 0, 10, 0, 1, 0⟩).positionRadius := by
  refine ⟨(positionRadius_monotone.1 ⟨160, 90⟩ ⟨1/2, 1/2, 1/2, 1/2, 1/2, 1/2⟩
    (by norm_num) (by norm_num)).1, ?_⟩
  exact positionRadius_monotone.2 ⟨1, 0, 10, 0, 1, 0⟩ 1 3 (by norm_num) (by norm_num)

/-- C3: in the fragment pass of `render`, every slot whose stored fragment
has its projected bounding extent fully outside `[0, width] × [0, height]`
is overwritten with a freshly recycled fragment (which is the one drawn in
that slot), and the replacement's initial `positionRadius` equals
`minPositionRadius` minus the replacement's own `selfRadius`. -/
theorem fragment_recycling :
    ∀ (w h : ℝ) (fs : FragmentSize) (frags : List FragmentProps)
      (rands : List RandVec) (i : ℕ)
      (h1 : i < frags.length) (h2 : i < rands.length),
      isOffCanvas w h frags[i] →
      (renderFragmentsPass w h fs frags rands)[i]? =
        some (recycleFragment fs rands[i]) ∧
      (recycleFragment fs rands[i]).positionRadius =
        fs.minPositionRadius - (recycleFragment fs rands[i]).selfRadius := by
  intro w h fs frags rands i h1 h2 hoff
  have hlen : i < (renderFragmentsPass w h fs frags rands).length := by
    simp only [renderFragmentsPass, List.length_zipWith, lt_min_iff]
    exact ⟨h1, h2⟩
  refine ⟨?_, by simp [recycleFragment]⟩
  rw [List.getElem?_eq_getElem hlen]
  simp only [renderFragmentsPass, List.getElem_zipWith, renderFragmentStep,
    if_pos hoff]

/-- Witness for C3: a fragment at `positionRadius = 1000`,
`positionAngle = 90°` projects to `(1050, 50)` on a 100×100 canvas, whose
bounding extent lies fully to the right of the canvas. -/
theorem fragment_recycling_witness :
    isOffCanvas 100 100 ⟨1, 0, 1000, 90, 0, 0⟩ ∧
    (renderFragmentsPass 100 100 ⟨1, 2, 20, 50, 1⟩
        [⟨1, 0, 1000, 90, 0, 0⟩] [⟨0, 0, 0, 0, 0, 0⟩])[0]? =
      some (recycleFragment ⟨1, 2, 20, 50, 1⟩ ⟨0, 0, 0, 0, 0, 0⟩) := by
  have hoff : isOffCanvas 100 100 ⟨1, 0, 1000, 90, 0, 0⟩ := by
    simp only [isOffCanvas, convertPolarToCartesian]
    have h0 : ((90 : ℝ) - 90) * (Real.pi / 180) = 0 := by ring
    rw [h0, Real.cos_zero, Real.sin_zero]
    norm_num
  exact ⟨hoff, (fragment_recycling 100 100 ⟨1, 2, 20, 50, 1⟩
    [⟨1, 0, 1000, 90, 0, 0⟩] [⟨0, 0, 0, 0, 0, 0⟩] 0
    (by simp) (by simp) hoff).1⟩

/-- C8: for an extracted palette of length 1, the padding loop repeats the
single entry until three entries exist, so all three role colors are
defined — background from that color darkened, spectrum and particle
colors from that same color lightened — and indexing entry 2 hits a real
entry of the padded list. -/
theorem palette_single_entry_padded :
    ∀ c : RgbColor,
      ensureThreeColors [c] = [c, c, c] ∧
      (ensureThreeColors [c]).length = 3 ∧
      (ensureThreeColors [c]).getD 2 default = c ∧
      getCoverColors [c] =
        { bg := changeColor c true, freq := changeColor c false
          fragments := changeColor c false } := by
  intro c
  have h3 : ensureThreeColors [c] = [c, c, c] := by
    rw [ensureThreeColors]
    norm_num [List.headI]
    rw [ensureThreeColors]
    norm_num [List.headI]
    rw [ensureThreeColors]
    norm_num
  refine ⟨h3, by rw [h3]; rfl, by rw [h3]; rfl, ?_⟩
  simp [getCoverColors, h3]

/-- JS truncation agrees with the floor on non-negative inputs. -/
lemma jsTrunc_eq_floor (q : ℚ) (hq : 0 ≤ q) : jsTrunc q = ⌊q⌋ := by
  unfold jsTrunc
  rw [if_neg (not_lt.mpr hq)]

/-- Flooring before dividing by 60 does not change the floor of the
quotient. -/
lemma floor_floor_div_sixty (x : ℚ) : ⌊((⌊x⌋ : ℤ) : ℚ) / 60⌋ = ⌊x / 60⌋ := by
  have hcast : ((60 : ℕ) : ℚ) = (60 : ℚ) := by norm_num
  have hl : ⌊((⌊x⌋ : ℤ) : ℚ) / 60⌋ = ⌊x⌋ / 60 := by
    have := Rat.floor_intCast_div_natCast ⌊x⌋ 60
    rwa [hcast] at this
  rw [hl]
  refine le_antisymm ?_ ?_
  · rw [Int.le_floor]
    have h1 : ((⌊x⌋ / 60 * 60 : ℤ) : ℚ) ≤ ((⌊x⌋ : ℤ) : ℚ) := by
      exact_mod_cast Int.ediv_mul_le ⌊x⌋ (by norm_num)
    have h2 : ((⌊x⌋ : ℤ) : ℚ) ≤ x := Int.floor_le x
    rw [le_div_iff₀ (by norm_num : (0 : ℚ) < 60)]
    push_cast at h1 ⊢
    linarith
  · rw [Int.le_ediv_iff_mul_le (by norm_num : (0 : ℤ) < 60), Int.le_floor]
    have h1 : ((⌊x / 60⌋ : ℤ) : ℚ) ≤ x / 60 := Int.floor_le (x / 60)
    push_cast
    linarith [(le_div_iff₀ (by norm_num : (0 : ℚ) < 60)).mp h1]

/-- The time formatter absorbs a floor of a non-negative input: the label
printed for `⌊x⌋` seconds is the label printed for `x` seconds. -/
lemma parseSecondsToTime_floor (x : ℚ) (hx : 0 ≤ x) :
    parseSecondsToTime ((⌊x⌋ : ℤ) : ℚ) = parseSecondsToTime x := by
  have hx60 : (0 : ℚ) ≤ x / 60 := by positivity
  have hfx : (0 : ℚ) ≤ ((⌊x⌋ : ℤ) : ℚ) := by
    exact_mod_cast Int.floor_nonneg.mpr hx
  have hfx60 : (0 : ℚ) ≤ ((⌊x⌋ : ℤ) : ℚ) / 60 := by positivity
  unfold parseSecondsToTime
  rw [jsTrunc_eq_floor _ hx60, jsTrunc_eq_floor _ hfx60, floor_floor_div_sixty]
  have hsec : ∀ a : ℚ, ⌊a - 60 * ((⌊x / 60⌋ : ℤ) : ℚ)⌋ = ⌊a⌋ - 60 * ⌊x / 60⌋ := by
    intro a
    have h1 : (60 : ℚ) * ((⌊x / 60⌋ : ℤ) : ℚ) = ((60 * ⌊x / 60⌋ : ℤ) : ℚ) := by
      push_cast
      ring
    rw [h1, Int.floor_sub_int]
  rw [hsec, hsec, Int.floor_intCast]

/-- C5: the seek preview computes the fraction `pointerX / trackWidth`
(which, for a pointer inside the track, equals its clamp to `[0, 1]`),
displays the time for `fraction · duration` seconds, treats an
unknown/NaN duration as 0, and at `trackWidth = 200`, `pointerX = 50`,
`duration = 120` previews second 30. -/
theorem seekProgress_preview :
    ∀ (offsetX barWidth : ℚ) (duration : Option ℚ),
      0 < barWidth → 0 ≤ offsetX → offsetX ≤ barWidth → 0 ≤ duration.getD 0 →
      offsetX / barWidth = max 0 (min 1 (offsetX / barWidth)) ∧
      (seekProgress offsetX barWidth duration).timeNowText =
        parseSecondsToTime (offsetX / barWidth * duration.getD 0) ∧
      (seekProgress offsetX barWidth duration).barPlayedWidthPct =
        offsetX / barWidth * 100 ∧
      (seekProgress offsetX barWidth duration).seekerLeftPct =
        offsetX / barWidth * 100 ∧
      seekPreviewTime offsetX barWidth none = 0 ∧
      seekPreviewTime 50 200 (some 120) = 30 ∧
      (seekProgress 50 200 (some 120)).timeNowText = parseSecondsToTime 30 := by
  intro offsetX barWidth duration hw hx hxw hd
  have hpct0 : 0 ≤ offsetX / barWidth := div_nonneg hx (le_of_lt hw)
  have hpct1 : offsetX / barWidth ≤ 1 := (div_le_one hw).mpr hxw
  have h30 : seekPreviewTime 50 200 (some 120) = 30 := by
    norm_num [seekPreviewTime]
  refine ⟨?_, ?_, rfl, rfl, ?_, h30, ?_⟩
  · rw [min_eq_right hpct1, max_eq_right hpct0]
  · show parseSecondsToTime ((seekPreviewTime offsetX barWidth duration : ℤ) : ℚ) = _
    unfold seekPreviewTime
    exact parseSecondsToTime_floor _ (mul_nonneg hpct0 hd)
  · norm_num [seekPreviewTime]
  · show parseSecondsToTime ((seekPreviewTime 50 200 (some 120) : ℤ) : ℚ) = _
    rw [h30]
    norm_num

/-- Witness for C5 at the concrete seek of the claim. -/
theorem seekProgress_preview_witness :
    (seekProgress 50 200 (some 120)).timeNowText =
      parseSecondsToTime ((50 : ℚ) / 200 * (Option.some (120 : ℚ)).getD 0) ∧
    seekPreviewTime 50 200 (some 120) = 30 := by
  have h := seekProgress_preview 50 200 (some 120) (by norm_num) (by norm_num)
    (by norm_num) (by norm_num)
  exact ⟨h.2.1, h.2.2.2.2.2.1⟩

/-- C6 counterexample: a horizontal wheel commit (`deltaX = 30`,
`canvasWidth = 100`, `currentTime = 5`) while the duration is still
unresolved (`NaN`) computes `currentTime - deltaX/width · NaN = NaN` and
`setProgress` leaves it unclamped — the value written to
`audio.currentTime` is `NaN` (`none`), not a number in `[0, duration]`,
and the media element rejects it. -/
theorem scrollSeek_unresolved_duration_not_clamped :
    scrollSeek 5 30 100 none = none := rfl

/-- `setProgress` on numeric time and duration really clamps. -/
lemma setProgress_some_clamped (t d : ℚ) (hd : 0 ≤ d) :
    ∃ v, setProgress (some t) (some d) = some v ∧ 0 ≤ v ∧ v ≤ d := by
  by_cases h1 : t < 0
  · exact ⟨0, by simp [setProgress, jsLt, h1], le_rfl, hd⟩
  · by_cases h2 : d < t
    · exact ⟨d, by simp [setProgress, jsLt, h1, h2], hd, le_rfl⟩
    · exact ⟨t, by simp [setProgress, jsLt, h1, h2], not_lt.mp h1, not_lt.mp h2⟩

/-- C6 (amended): every committed seek through `setProgress` with a
numeric target is clamped to `[0, duration]`: a progress-bar click
(`jumpProgress`) always commits a clamped value, even with the duration
unresolved (it is treated as 0 there); the horizontal-wheel commit
(`scrollEvent` → `setProgress`) is clamped whenever the duration is
resolved — but with an unresolved duration the wheel path computes `NaN`
and is not clamped (see the counterexample). -/
theorem committed_seek_clamped :
    (∀ t d : ℚ, 0 ≤ d →
      ∃ v, setProgress (some t) (some d) = some v ∧ 0 ≤ v ∧ v ≤ d) ∧
    (∀ (offsetX barWidth : ℚ) (dur : Option ℚ), 0 < barWidth →
      0 ≤ dur.getD 0 →
      ∃ v, jumpProgress offsetX barWidth dur = some v ∧ 0 ≤ v ∧
        v ≤ dur.getD 0) ∧
    (∀ ct dx w d : ℚ, 0 ≤ d →
      ∃ v, scrollSeek ct dx w (some d) = some v ∧ 0 ≤ v ∧ v ≤ d) := by
  refine ⟨fun t d hd => setProgress_some_clamped t d hd, ?_, ?_⟩
  · intro offsetX barWidth dur _hw hd
    rcases dur with _ | d
    · refine ⟨0, ?_, le_rfl, le_rfl⟩
      simp [jumpProgress, setProgress, jsLt]
    · exact setProgress_some_clamped _ d hd
  · intro ct dx w d hd
    exact setProgress_some_clamped _ d hd

/-- Witness for C6 (amended) at concrete committed seeks. -/
theorem committed_seek_clamped_witness :
    (∃ v, setProgress (some 500) (some 120) = some v ∧ 0 ≤ v ∧ v ≤ 120) ∧
    (∃ v, jumpProgress 50 200 none = some v ∧ 0 ≤ v ∧
      v ≤ (Option.none (α := ℚ)).getD 0) ∧
    (∃ v, scrollSeek 5 (-300) 100 (some 120) = some v ∧ 0 ≤ v ∧ v ≤ 120) := by
  exact ⟨committed_seek_clamped.1 500 120 (by norm_num),
    committed_seek_clamped.2.1 50 200 none (by norm_num) (by norm_num),
    committed_seek_clamped.2.2 5 (-300) 100 120 (by norm_num)⟩

end Auviz
